import Mathlib

/-!
# Verification of the Suruga Seiki EW-51 motion-control core

Shallow embedding of the motion/backend abstraction of the
`suruga_seiki_ew51` repository, and proofs about it.

Conventions of the embedding:
* positions, targets and speeds are rationals (`ℚ`), standing for the
  Python floats; all position arithmetic of the mock backend is done
  symbolically;
* every backend operation is a function `MState → MState × Except MErr α`:
  the state component is always returned because a Python exception leaves
  the mutations already performed in place;
* the cooperative scheduler is made explicit: an `asyncio` motion task is a
  `MTask` value with a program counter recording the suspension point it is
  parked at, and `taskStep` runs the task from one suspension point to the
  next, exactly following the body of `MockBackend._simulate_motion`;
* a `cancel()` immediately followed by `await task` (the only cancellation
  pattern the code uses) is modelled by `cancelTask`, which runs the task's
  `finally` block when the task had started and merely drops the
  never-started coroutine otherwise;
* wall-clock time is simulated, not measured: each `asyncio.sleep` of a
  motion task stands for `duration / steps` simulated seconds, and
  `wait_for_motion_complete` compares the task's remaining simulated sleep
  time against its timeout to decide between completing the task and the
  `asyncio.wait_for` timeout path (which cancels the task and raises).
-/

/-- The 12 axis identifiers of `models/enums.py` (`AxisId`). -/
inductive AxisId
  | X1 | Y1 | Z1 | TX1 | TY1 | TZ1
  | X2 | Y2 | Z2 | TX2 | TY2 | TZ2
deriving DecidableEq, Repr

/-- All axes, in enum declaration order (the iteration order of
`for axis in AxisId` in Python). -/
def allAxes : List AxisId :=
  [.X1, .Y1, .Z1, .TX1, .TY1, .TZ1, .X2, .Y2, .Z2, .TX2, .TY2, .TZ2]

/-- The error kinds of `utils/exceptions.py` that the modelled code raises:
`HardwareError`, `ServoError`, `MovementError`, `TimeoutError`. -/
inductive MErr
  | hardware | servo | movement | timeout
deriving DecidableEq, Repr

/-- Program counter of a `_simulate_motion` coroutine: either the task was
created by `asyncio.create_task` but has not yet run its first instruction,
or it is suspended at the `asyncio.sleep` ending loop iteration `i`. -/
inductive TaskPC
  | notStarted
  | suspended (i : ℕ)
deriving DecidableEq, Repr

/-- `duration = distance / speed if speed > 0 else 0` in
`MockBackend._simulate_motion`. -/
def durationOf (start target speed : ℚ) : ℚ :=
  if speed > 0 then |target - start| / speed else 0

/-- `steps = max(int(duration * 10), 1)`: Python `int()` truncates toward
zero, which on the non-negative `duration * 10` is the floor. -/
def stepsOf (start target speed : ℚ) : ℕ :=
  max (⌊durationOf start target speed * 10⌋).toNat 1

/-- A live motion task of the mock backend: the arguments
`_simulate_motion` was started with, plus its current suspension point. -/
structure MTask where
  start : ℚ
  target : ℚ
  speed : ℚ
  pc : TaskPC
deriving DecidableEq, Repr

/-- Number of interpolation steps of this task. -/
def MTask.steps (t : MTask) : ℕ := stepsOf t.start t.target t.speed

/-- Upper bound on the number of `taskStep`s this task still needs in order
to finish: one step to start, `steps + 1` loop iterations, one final step
(always at least one step, also for a suspension index past the loop). -/
def MTask.remaining (t : MTask) : ℕ :=
  match t.pc with
  | .notStarted => t.steps + 2
  | .suspended i => max (t.steps + 1 - i) 1

/-- Simulated seconds of one `asyncio.sleep(duration / steps)` of this
task (zero for an instantaneous move). -/
def MTask.sleepPerStep (t : MTask) : ℚ :=
  durationOf t.start t.target t.speed / (t.steps : ℚ)

/-- Number of sleeps still ahead of this task: the loop runs `steps + 1`
sleeps in total, and a task suspended in the sleep of iteration `i` has
that sleep and the later ones ahead of it. -/
def MTask.sleepsLeft (t : MTask) : ℕ :=
  match t.pc with
  | .notStarted => t.steps + 1
  | .suspended i => t.steps + 1 - i

/-- How many `taskStep`s the task performs before a wait that times out
after `timeout` simulated seconds cancels it: the sleeps that complete
within the timeout each trigger one resumption, and a not-yet-started task
additionally runs up to its first sleep as soon as the wait yields. -/
def MTask.stepsWithin (t : MTask) (timeout : ℚ) : ℕ :=
  if t.sleepPerStep ≤ 0 then 0
  else
    match t.pc with
    | .notStarted => (⌊timeout / t.sleepPerStep⌋).toNat + 1
    | .suspended _ => (⌊timeout / t.sleepPerStep⌋).toNat

/-- State of a `MockBackend` instance: the `_connected` flag and the
per-axis dictionaries `_positions`, `_servo_enabled`, `_is_homed`,
`_is_moving`, `_motion_tasks`.  A `some` task is live (created, not yet
finished, not yet cancelled); `none` stands both for the `None` slot and
for a slot holding a `done()` task, which every guard in the code treats
identically. -/
structure MState where
  connected : Bool
  pos : AxisId → ℚ
  servo : AxisId → Bool
  homed : AxisId → Bool
  moving : AxisId → Bool
  task : AxisId → Option MTask

/-- The state built by `MockBackend.__init__`. -/
def initState : MState :=
  { connected := false
    pos := fun _ => 0
    servo := fun _ => false
    homed := fun _ => false
    moving := fun _ => false
    task := fun _ => none }

/-- Run the task on axis `a` from its current suspension point to the next
one (or to completion), exactly following the body of
`MockBackend._simulate_motion`:
* first step: `self._is_moving[axis] = True`, then loop iteration `i = 0`
  sets the position to `start` and suspends in the sleep;
* resuming from the sleep of iteration `i < steps` runs iteration `i + 1`:
  set `position = start + (target - start) * ((i+1) / steps)` and suspend;
* resuming from the sleep of the last iteration leaves the loop, sets
  `position = target`, and the `finally` block clears `_is_moving` and the
  task slot. -/
def taskStep (a : AxisId) (s : MState) : MState :=
  match s.task a with
  | none => s
  | some t =>
    match t.pc with
    | .notStarted =>
      { s with
        moving := Function.update s.moving a true
        pos := Function.update s.pos a t.start
        task := Function.update s.task a (some { t with pc := .suspended 0 }) }
    | .suspended i =>
      if i < t.steps then
        { s with
          pos := Function.update s.pos a
            (t.start + (t.target - t.start) * ((i + 1 : ℚ) / (t.steps : ℚ)))
          task := Function.update s.task a (some { t with pc := .suspended (i + 1) }) }
      else
        { s with
          pos := Function.update s.pos a t.target
          moving := Function.update s.moving a false
          task := Function.update s.task a none }

/-- `task.cancel()` immediately followed by `await task`, the only
cancellation pattern in the code.  A task suspended in a sleep observes the
cancellation there and runs its `finally` block (`_is_moving[axis] = False`,
clear the slot); a task that never started runs none of its body — the
`finally` block is never entered — so only the slot is dropped. -/
def cancelTask (a : AxisId) (s : MState) : MState :=
  match s.task a with
  | none => s
  | some t =>
    match t.pc with
    | .notStarted => { s with task := Function.update s.task a none }
    | .suspended _ =>
      { s with
        moving := Function.update s.moving a false
        task := Function.update s.task a none }

/-- Iterate `taskStep` on axis `a` while a task is live, up to `f` times. -/
def runTaskFuel : ℕ → AxisId → MState → MState
  | 0, _, s => s
  | f + 1, a, s =>
    match s.task a with
    | none => s
    | some _ => runTaskFuel f a (taskStep a s)

namespace MockBackend

/-- `MockBackend.connect`: sleeps (a pure suspension point here) and sets
`_connected = True`. -/
def connect (s : MState) : MState × Except MErr Unit :=
  ({ s with connected := true }, .ok ())

/-- `MockBackend.disconnect`: cancels-and-awaits every live motion task
(regardless of the `_is_moving` flag), then clears `_connected`. -/
def disconnect (s : MState) : MState × Except MErr Unit :=
  ({ allAxes.foldl (fun st a => cancelTask a st) s with connected := false }, .ok ())

/-- `MockBackend.get_axis_position`. -/
def get_axis_position (a : AxisId) (s : MState) : MState × Except MErr ℚ :=
  if s.connected then (s, .ok (s.pos a)) else (s, .error .hardware)

/-- `MockBackend.move_axis`: connected check, servo check, cancel-and-await
of any live task for the axis, target resolution, bounds check
(`abs(actual_target) > 500_000` raises `MovementError`), then
`asyncio.create_task(self._simulate_motion(...))` — the new task is
recorded but has not yet executed any instruction. -/
def move_axis (a : AxisId) (target : ℚ) (relative : Bool) (speed : Option ℚ)
    (s : MState) : MState × Except MErr Unit :=
  if ¬ s.connected then (s, .error .hardware)
  else if ¬ s.servo a then (s, .error .servo)
  else
    let s1 := cancelTask a s
    let startPos := s1.pos a
    let actualTarget := if relative then startPos + target else target
    if |actualTarget| > 500000 then (s1, .error .movement)
    else
      ({ s1 with
          task := Function.update s1.task a
            (some ⟨startPos, actualTarget, speed.getD 1000, .notStarted⟩) },
        .ok ())

/-- `MockBackend.is_axis_moving`. -/
def is_axis_moving (a : AxisId) (s : MState) : MState × Except MErr Bool :=
  if s.connected then (s, .ok (s.moving a)) else (s, .error .hardware)

/-- `MockBackend.wait_for_motion_complete`: connected check; returns at
once when no task is live (`task is None or task.done()`); otherwise
`asyncio.wait_for(task, timeout=timeout)`: when the task's remaining
simulated sleep time fits into the timeout it runs to completion and the
wait returns normally, else the wait lets it run for `timeout` simulated
seconds, cancels it, and raises the repository's `TimeoutError`. -/
def wait_for_motion_complete (a : AxisId) (timeout : ℚ) (s : MState) :
    MState × Except MErr Unit :=
  if ¬ s.connected then (s, .error .hardware)
  else
    match s.task a with
    | none => (s, .ok ())
    | some t =>
      if (t.sleepsLeft : ℚ) * t.sleepPerStep ≤ timeout then
        (runTaskFuel t.remaining a s, .ok ())
      else
        (cancelTask a (runTaskFuel (t.stepsWithin timeout) a s), .error .timeout)

/-- `MockBackend.enable_servo`. -/
def enable_servo (a : AxisId) (s : MState) : MState × Except MErr Unit :=
  if ¬ s.connected then (s, .error .hardware)
  else ({ s with servo := Function.update s.servo a true }, .ok ())

/-- `MockBackend.disable_servo`: connected check; when `_is_moving[axis]`
is set, cancel-and-await the live task; then clear the servo flag. -/
def disable_servo (a : AxisId) (s : MState) : MState × Except MErr Unit :=
  if ¬ s.connected then (s, .error .hardware)
  else
    let s1 := if s.moving a then cancelTask a s else s
    ({ s1 with servo := Function.update s1.servo a false }, .ok ())

/-- `MockBackend.home_axis`: connected check, servo check, then
`move_axis(axis, 0.0, relative=False)`, `wait_for_motion_complete(axis)`,
and `_is_homed[axis] = True`. -/
def home_axis (a : AxisId) (s : MState) : MState × Except MErr Unit :=
  if ¬ s.connected then (s, .error .hardware)
  else if ¬ s.servo a then (s, .error .servo)
  else
    match move_axis a 0 false none s with
    | (s1, .error e) => (s1, .error e)
    | (s1, .ok _) =>
      match wait_for_motion_complete a 30 s1 with
      | (s2, .error e) => (s2, .error e)
      | (s2, .ok _) =>
        ({ s2 with homed := Function.update s2.homed a true }, .ok ())

/-- `MockBackend.get_axis_status` (the four per-axis fields). -/
def get_axis_status (a : AxisId) (s : MState) :
    MState × Except MErr (ℚ × Bool × Bool × Bool) :=
  if s.connected then (s, .ok (s.pos a, s.servo a, s.moving a, s.homed a))
  else (s, .error .hardware)

/-- `MockBackend.emergency_stop`: no connected check; for every axis, when
`_is_moving[axis]` is set, cancel-and-await its live task.  Never raises. -/
def emergency_stop (s : MState) : MState × Except MErr Unit :=
  (allAxes.foldl (fun st a => if st.moving a then cancelTask a st else st) s, .ok ())

end MockBackend

/-- States of the mock backend reachable from `initState` by any sequence
of backend operations and single task steps of the cooperative scheduler,
the state after an operation being the state it leaves behind whether it
returned normally or raised. -/
inductive Reachable : MState → Prop
  | init : Reachable initState
  | connect {s} : Reachable s → Reachable (MockBackend.connect s).1
  | disconnect {s} : Reachable s → Reachable (MockBackend.disconnect s).1
  | enableServo {s} (a : AxisId) : Reachable s → Reachable (MockBackend.enable_servo a s).1
  | disableServo {s} (a : AxisId) : Reachable s → Reachable (MockBackend.disable_servo a s).1
  | moveAxis {s} (a : AxisId) (target : ℚ) (relative : Bool) (speed : Option ℚ) :
      Reachable s → Reachable (MockBackend.move_axis a target relative speed s).1
  | waitForMotion {s} (a : AxisId) (timeout : ℚ) : Reachable s →
      Reachable (MockBackend.wait_for_motion_complete a timeout s).1
  | homeAxis {s} (a : AxisId) : Reachable s → Reachable (MockBackend.home_axis a s).1
  | emergencyStop {s} : Reachable s → Reachable (MockBackend.emergency_stop s).1
  | step {s} (a : AxisId) : Reachable s → Reachable (taskStep a s)

/-- The invariant exactly as the specification states it: for every axis,
`isMoving` is true iff a live motion task for that axis exists. -/
def movingIffLiveTask (s : MState) : Prop :=
  ∀ a : AxisId, s.moving a = true ↔ (s.task a).isSome

/-- The invariant the code actually maintains: `isMoving` is true iff a
live motion task exists that has already begun executing. -/
def movingIffStartedTask (s : MState) : Prop :=
  ∀ a : AxisId, s.moving a = true ↔ ∃ t, s.task a = some t ∧ t.pc ≠ TaskPC.notStarted

/-- True exactly when an `Except` result is an error (a raised exception). -/
def isErr {e a : Type} : Except e a → Bool
  | .error _ => true
  | .ok _ => false

/-- The step count as the specification words it:
`steps = max(round(duration × 10), 1)`, with a genuine rounding of
`duration × 10` to the nearest integer.  Stated for comparison with the
code's `stepsOf`, which truncates. -/
def stepsSpecRound (start target speed : ℚ) : ℕ :=
  max (round (durationOf start target speed * 10)).toNat 1

/-- Concrete scenario: `connect()`, `enable_servo(X1)`,
`move_axis(X1, 100000.0, absolute)` — and no event-loop turn yet, so the
created motion task has not executed its first instruction. -/
def pendingMoveState : MState :=
  (MockBackend.move_axis AxisId.X1 100000 false none
    ((MockBackend.enable_servo AxisId.X1 (MockBackend.connect initState).1).1)).1

/-- `pendingMoveState` after one scheduler turn: the motion task for `X1`
has run up to its first sleep, so `_is_moving[X1]` is now set. -/
def startedMoveState : MState := taskStep AxisId.X1 pendingMoveState

/-- Status values returned by the external driver's `GetStatus()`:
`"InPosition"`, `"Error"`, or anything else. -/
inductive DriverStatus
  | inPosition | errorStatus | busy
deriving DecidableEq, Repr

/-- Oracle for the external driver (`srgmc.dll`) behind the real backend:
which calls succeed, what they return, and the event-loop clock. -/
structure DriverEnv where
  servoOn : AxisId → Bool
  servoOnFails : AxisId → Bool
  turnOffFails : AxisId → Bool
  moveFails : AxisId → Bool
  status : AxisId → ℕ → DriverStatus
  elapsed : ℕ → ℚ

namespace RealBackend

/-- `RealBackend.move_axis`: `_get_axis_component` raises `HardwareError`
when disconnected, which the blanket `except Exception` handler of
`move_axis` rewraps as `MovementError`; a failing `IsServoOn()` call is
likewise wrapped; a servo that is off raises `ServoError` (re-raised
as-is); a driver move command reporting an error raises `MovementError`. -/
def move_axis (env : DriverEnv) (connected : Bool) (a : AxisId) :
    Except MErr Unit :=
  if ¬ connected then .error .movement
  else if env.servoOnFails a then .error .movement
  else if ¬ env.servoOn a then .error .servo
  else if env.moveFails a then .error .movement
  else .ok ()

/-- One driver poll of `RealBackend.wait_for_motion_complete`, iterated
with fuel: `InPosition` completes, `Error` raises `MovementError`, any
other status checks the elapsed clock against the timeout and otherwise
sleeps and polls again.  `none` means the fuel ran out before the loop
terminated. -/
def waitPoll (env : DriverEnv) (a : AxisId) (timeout : ℚ) :
    ℕ → ℕ → Option (Except MErr Unit)
  | 0, _ => none
  | f + 1, n =>
    match env.status a n with
    | .inPosition => some (.ok ())
    | .errorStatus => some (.error .movement)
    | .busy =>
      if env.elapsed n > timeout then some (.error .timeout)
      else waitPoll env a timeout f (n + 1)

/-- `RealBackend.wait_for_motion_complete`: `_get_axis_component` raises
`HardwareError` (uncaught here) when disconnected, else the poll loop. -/
def wait_for_motion_complete (env : DriverEnv) (connected : Bool) (a : AxisId)
    (timeout : ℚ) (fuel : ℕ) : Option (Except MErr Unit) :=
  if ¬ connected then some (.error .hardware)
  else waitPoll env a timeout fuel 0

/-- `RealBackend.home_axis`: `move_axis(axis, 0)` then
`wait_for_motion_complete(axis, 60)` then `_is_homed[axis] = True`, all
inside `try: ... except Exception as e: raise MovementError(...)`, so every
failure — including a `ServoError` from `move_axis` — surfaces as
`MovementError`. -/
def home_axis (env : DriverEnv) (connected : Bool) (a : AxisId)
    (homed : AxisId → Bool) (fuel : ℕ) :
    Option ((AxisId → Bool) × Except MErr Unit) :=
  match move_axis env connected a with
  | .error _ => some (homed, .error .movement)
  | .ok _ =>
    match wait_for_motion_complete env connected a 60 fuel with
    | none => none
    | some (.error _) => some (homed, .error .movement)
    | some (.ok _) => some (Function.update homed a true, .ok ())

/-- One per-axis body of the `RealBackend.emergency_stop` loop (inside its
own `try`): `IsServoOn()` (which may raise), and if it returned true,
`TurnOffServo()` (which may raise).  The surrounding `except` swallows
either failure, so the loop continues regardless. -/
def stopAxis (env : DriverEnv) (a : AxisId) : Except Unit Unit :=
  if env.servoOnFails a then .error ()
  else if env.servoOn a then
    (if env.turnOffFails a then .error () else .ok ())
  else .ok ()

/-- `RealBackend.emergency_stop`: returns at once when disconnected; else
runs `stopAxis` for every axis in order, each failure logged and swallowed,
and returns normally.  The result records the attempted axes with each
attempt's outcome. -/
def emergency_stop (env : DriverEnv) (connected : Bool) :
    List (AxisId × Except Unit Unit) × Except MErr Unit :=
  if ¬ connected then ([], .ok ())
  else (allAxes.map (fun a => (a, stopAxis env a)), .ok ())

end RealBackend

/-- `models/enums.py` `DaemonState`. -/
inductive DaemonState
  | starting | ready | running | stopping | stopped | errorState
deriving DecidableEq, Repr

/-- The error `EW51Daemon.start` raises: every failure inside its `try`
block is rewrapped as `ConnectionError("Daemon startup failed: ...")`. -/
inductive DaemonErr
  | connectionFailure
deriving DecidableEq, Repr

/-- `EW51Daemon.start`, with the backend's `connect()` outcome as an
oracle.  Returns the list of state assignments performed (in order), the
final state, and the result.  Not `Stopped`: warn and return with no
assignment.  Else assign `Starting`, construct the backend and connect;
on success assign `Ready`; on any exception assign `Error` and raise
`ConnectionError`. -/
def daemonStart (connectOk : Bool) (st : DaemonState) :
    List DaemonState × DaemonState × Except DaemonErr Unit :=
  if st ≠ DaemonState.stopped then ([], st, .ok ())
  else if connectOk then
    ([DaemonState.starting, DaemonState.ready], DaemonState.ready, .ok ())
  else
    ([DaemonState.starting, DaemonState.errorState], DaemonState.errorState,
      .error .connectionFailure)

/-- One per-axis request of the multi-axis movement endpoint. -/
structure MoveReq where
  axis : AxisId
  target : ℚ
  relative : Bool

/-- `models/enums.py` `MovementStatus`. -/
inductive MovementStatus
  | idle | movingStatus | completed | errorResult
deriving DecidableEq, Repr

/-- One per-axis entry of the multi-axis response. -/
structure MovementResp where
  axis : AxisId
  status : MovementStatus
  currentPos : ℚ
deriving DecidableEq, Repr

/-- Backend-call oracle for the orchestration endpoint, indexed by request
position: the outcome of the `move_axis` call for request `i`, of the
`wait_for_motion_complete` call for request `i`, of the
`get_axis_position` read in the normal path, and of the second
`get_axis_position` read performed inside the exception handler. -/
structure OrchEnv where
  moveRes : ℕ → Except MErr Unit
  waitRes : ℕ → Except MErr Unit
  posTry : ℕ → Except MErr ℚ
  posExc : ℕ → Except MErr ℚ

/-- First loop of `move_multiple_axes`: issue `move_axis` for every
request in order; a failure is recorded in the overall flag but the loop
continues.  Returns the axes the calls were issued for (in order) and
whether any call failed. -/
def issueMoves (env : OrchEnv) : List MoveReq → ℕ → List AxisId × Bool
  | [], _ => ([], false)
  | r :: rs, i =>
    let rest := issueMoves env rs (i + 1)
    (r.axis :: rest.1, isErr (env.moveRes i) || rest.2)

/-- Second loop of `move_multiple_axes` when waiting was requested: for
each request in order, `wait_for_motion_complete` then
`get_axis_position`, both inside one `try`; on success append a
`COMPLETED` response; on failure the handler reads the position again and
appends an `ERROR` response, setting the overall flag — but if that second
read itself raises, the exception escapes the endpoint.  Returns the
responses and whether any request failed. -/
def waitPhase (env : OrchEnv) : List MoveReq → ℕ → Except MErr (List MovementResp × Bool)
  | [], _ => .ok ([], false)
  | r :: rs, i =>
    match env.waitRes i with
    | .ok _ =>
      match env.posTry i with
      | .ok p =>
        match waitPhase env rs (i + 1) with
        | .ok (resps, flag) => .ok (⟨r.axis, .completed, p⟩ :: resps, flag)
        | .error e => .error e
      | .error _ =>
        match env.posExc i with
        | .ok p =>
          match waitPhase env rs (i + 1) with
          | .ok (resps, _) => .ok (⟨r.axis, .errorResult, p⟩ :: resps, true)
          | .error e => .error e
        | .error e => .error e
    | .error _ =>
      match env.posExc i with
      | .ok p =>
        match waitPhase env rs (i + 1) with
        | .ok (resps, _) => .ok (⟨r.axis, .errorResult, p⟩ :: resps, true)
        | .error e => .error e
      | .error e => .error e

/-- Second loop of `move_multiple_axes` when waiting was not requested:
read each position (unprotected — a failure escapes) and append a `MOVING`
response. -/
def noWaitPhase (env : OrchEnv) : List MoveReq → ℕ → Except MErr (List MovementResp)
  | [], _ => .ok []
  | r :: rs, i =>
    match env.posTry i with
    | .ok p =>
      match noWaitPhase env rs (i + 1) with
      | .ok resps => .ok (⟨r.axis, .movingStatus, p⟩ :: resps)
      | .error e => .error e
    | .error e => .error e

/-- `move_multiple_axes` (`app/routers/movement.py`): issue all moves,
then either the waiting or the non-waiting read-back loop; the overall
status is `ERROR` when any move call or any waited request failed, else
`COMPLETED`.  The first component records the axes `move_axis` was issued
for, in order. -/
def moveMultipleAxes (env : OrchEnv) (reqs : List MoveReq) (wait : Bool) :
    List AxisId × Except MErr (List MovementResp × MovementStatus) :=
  let issued := issueMoves env reqs 0
  if wait then
    match waitPhase env reqs 0 with
    | .ok (resps, flag) =>
      (issued.1, .ok (resps, if issued.2 || flag then .errorResult else .completed))
    | .error e => (issued.1, .error e)
  else
    match noWaitPhase env reqs 0 with
    | .ok resps =>
      (issued.1, .ok (resps, if issued.2 then .errorResult else .completed))
    | .error e => (issued.1, .error e)

/-- `models/alignment.py` `AlignmentStatus`. -/
inductive AlignStatus
  | idle | aligning | success | failure | stopped | errorStatus
deriving DecidableEq, Repr

/-- The message field of an alignment result: the defaults built by
`_build_result_response`, or the explicit "Stopped by user" message. -/
inductive AlignMsg
  | successMsg
  | failedWithStatus (st : AlignStatus)
  | stoppedByUser
deriving DecidableEq, Repr

/-- An alignment result response (the fields this core decides). -/
structure AlignResult where
  success : Bool
  message : AlignMsg
  opticalPower : Option ℚ
deriving DecidableEq, Repr

/-- Oracle for the alignment subsystem: the status observed by poll `n`,
the elapsed clock at poll `n`, and the outcome of the best-effort optical
power read performed while building the result after poll `n`. -/
structure AlignEnv where
  status : ℕ → AlignStatus
  elapsed : ℕ → ℚ
  power : ℕ → Except Unit ℚ

/-- The error `wait_for_completion` raises on timeout (`AlignmentError`,
the spec's `AlignmentTimeout`). -/
inductive AlignErr
  | alignTimeout
deriving DecidableEq, Repr

/-- `AlignmentController._build_result_response` at poll `n`: the optical
power is read best-effort (absent when the read raises); a `None` message
defaults to "Success" or "Failed with status ...". -/
def buildResult (env : AlignEnv) (n : ℕ) (success : Bool)
    (message : Option AlignMsg) : AlignResult :=
  { success := success
    message := message.getD
      (if success then .successMsg else .failedWithStatus (env.status n))
    opticalPower := (env.power n).toOption }

/-- `AlignmentController.wait_for_completion`, fuel-indexed, polling from
poll index `n`: `Success` builds a success result; `Failure`/`Error`
build a failure result; `Stopped` builds a failure result with message
"Stopped by user"; otherwise, when the elapsed time exceeds the timeout,
raise the timeout error, else sleep `poll_interval` and poll again.
`none` means the fuel ran out. -/
def waitForCompletion (env : AlignEnv) (timeout : ℚ) :
    ℕ → ℕ → Option (Except AlignErr AlignResult)
  | 0, _ => none
  | f + 1, n =>
    match env.status n with
    | .success => some (.ok (buildResult env n true none))
    | .failure => some (.ok (buildResult env n false none))
    | .errorStatus => some (.ok (buildResult env n false none))
    | .stopped => some (.ok (buildResult env n false (some .stoppedByUser)))
    | .idle =>
      if env.elapsed n > timeout then some (.error .alignTimeout)
      else waitForCompletion env timeout f (n + 1)
    | .aligning =>
      if env.elapsed n > timeout then some (.error .alignTimeout)
      else waitForCompletion env timeout f (n + 1)

/-- Claim C2's per-move property (amended to the code's truncating step
count): step count `max(⌊duration*10⌋, 1)`, instantaneous for
non-positive speed, position `start + (target-start)*(k/steps)` after the
task's `k`-th interpolation increment with the moving flag set, and after
the final resume the position is exactly the target with the moving flag
cleared and the task slot empty. -/
def trajectoryOk (a : AxisId) (s : MState) (st tg sp : ℚ) : Prop :=
  stepsOf st tg sp = max (⌊durationOf st tg sp * 10⌋).toNat 1 ∧
  (sp ≤ 0 → durationOf st tg sp = 0) ∧
  (∀ k : ℕ, k ≤ stepsOf st tg sp →
    ((taskStep a)^[k + 1] s).pos a =
      st + (tg - st) * ((k : ℚ) / (stepsOf st tg sp : ℚ)) ∧
    ((taskStep a)^[k + 1] s).moving a = true) ∧
  ((taskStep a)^[stepsOf st tg sp + 2] s).pos a = tg ∧
  ((taskStep a)^[stepsOf st tg sp + 2] s).moving a = false ∧
  ((taskStep a)^[stepsOf st tg sp + 2] s).task a = none

/-- Claim C3 exactly as stated: whenever `move_axis` raises, the call
leaves the backend state — previously live motion task included —
exactly as it was. -/
def claimC3 : Prop :=
  ∀ s, Reachable s → ∀ (a : AxisId) (t : ℚ) (rel : Bool) (sp : Option ℚ),
    isErr (MockBackend.move_axis a t rel sp s).2 = true →
    (MockBackend.move_axis a t rel sp s).1 = s

/-- What `move_axis` actually guarantees when it raises: the connected and
servo precondition failures mutate nothing at all; the out-of-bounds
failure starts no new task and leaves position, servo, homed flags and
every other axis untouched, but the moved axis's previously live task has
already been cancelled-and-awaited (its moving flag is clear). -/
def moveErrorContract (s : MState) (a : AxisId) (t : ℚ) (rel : Bool)
    (sp : Option ℚ) : Prop :=
  ((MockBackend.move_axis a t rel sp s).2 = .error .hardware →
    (MockBackend.move_axis a t rel sp s).1 = s) ∧
  ((MockBackend.move_axis a t rel sp s).2 = .error .servo →
    (MockBackend.move_axis a t rel sp s).1 = s) ∧
  ((MockBackend.move_axis a t rel sp s).2 = .error .movement →
    (MockBackend.move_axis a t rel sp s).1.pos = s.pos ∧
    (MockBackend.move_axis a t rel sp s).1.servo = s.servo ∧
    (MockBackend.move_axis a t rel sp s).1.homed = s.homed ∧
    (MockBackend.move_axis a t rel sp s).1.connected = s.connected ∧
    (MockBackend.move_axis a t rel sp s).1.task a = none ∧
    (MockBackend.move_axis a t rel sp s).1.moving a = false ∧
    (∀ b, b ≠ a →
      (MockBackend.move_axis a t rel sp s).1.task b = s.task b ∧
      (MockBackend.move_axis a t rel sp s).1.moving b = s.moving b))

/-- Claim C4's mock half exactly as stated: after `emergency_stop` no live
motion task remains on any axis. -/
def claimC4 : Prop :=
  ∀ s, Reachable s → ∀ a : AxisId, (MockBackend.emergency_stop s).1.task a = none

/-- What the mock `emergency_stop` actually guarantees: it returns
normally, every moving flag is clear afterwards, and the task of every
axis that was moving (equivalently, whose task had started) is cancelled.
A created-but-never-started task is not covered. -/
def estopMockContract (s : MState) : Prop :=
  (MockBackend.emergency_stop s).2 = .ok () ∧
  ∀ a : AxisId,
    (MockBackend.emergency_stop s).1.moving a = false ∧
    (s.moving a = true → (MockBackend.emergency_stop s).1.task a = none)

/-- Claim C5's core exactly as stated: a successful `disable_servo` leaves
no live motion task on the axis. -/
def claimC5 : Prop :=
  ∀ s, Reachable s → ∀ a : AxisId,
    isErr (MockBackend.disable_servo a s).2 = false →
    (MockBackend.disable_servo a s).1.task a = none

/-- Claim C10 exactly as stated: for every backend state, connected or
not, the mock `emergency_stop` returns normally after cancelling any live
motion tasks (no live task remains). -/
def claimC10 : Prop :=
  ∀ s, Reachable s →
    (MockBackend.emergency_stop s).2 = .ok () ∧
    ∀ a : AxisId, (MockBackend.emergency_stop s).1.task a = none

/-- What the mock `disable_servo` actually guarantees: when disconnected it
raises without mutating; when connected it returns normally with the moving
flag clear and the servo flag clear, and cancels the task of an axis that
was moving.  A created-but-never-started task survives. -/
def disableServoContract (s : MState) (a : AxisId) : Prop :=
  (s.connected = false →
    (MockBackend.disable_servo a s).1 = s ∧
    (MockBackend.disable_servo a s).2 = .error .hardware) ∧
  (s.connected = true →
    (MockBackend.disable_servo a s).2 = .ok () ∧
    (MockBackend.disable_servo a s).1.moving a = false ∧
    (MockBackend.disable_servo a s).1.servo a = false ∧
    (s.moving a = true → (MockBackend.disable_servo a s).1.task a = none))

/-- What the mock `home_axis` guarantees: not-connected and servo-off
preconditions fail with the corresponding error kinds; otherwise the call
either succeeds or raises the wait's `TimeoutError`, and on success the
axis ends exactly at position 0, homed, not moving. -/
def homeMockContract (s : MState) (a : AxisId) : Prop :=
  (s.connected = false → (MockBackend.home_axis a s).2 = .error .hardware) ∧
  (s.connected = true → s.servo a = false →
    (MockBackend.home_axis a s).2 = .error .servo) ∧
  (s.connected = true → s.servo a = true →
    ((MockBackend.home_axis a s).2 = .ok () ∨
      (MockBackend.home_axis a s).2 = .error .timeout) ∧
    ((MockBackend.home_axis a s).2 = .ok () →
      (MockBackend.home_axis a s).1.pos a = 0 ∧
      (MockBackend.home_axis a s).1.homed a = true ∧
      (MockBackend.home_axis a s).1.moving a = false ∧
      (MockBackend.home_axis a s).1.task a = none))

/-- A driver oracle in which every axis reports its servo off and nothing
fails: exercises the servo-disabled precondition of the real backend. -/
def servoOffEnv : DriverEnv :=
  { servoOn := fun _ => false
    servoOnFails := fun _ => false
    turnOffFails := fun _ => false
    moveFails := fun _ => false
    status := fun _ _ => DriverStatus.inPosition
    elapsed := fun _ => 0 }

/-- A driver oracle in which all servos are on but turning the servo of
`X1` off fails: exercises the partial-failure tolerance of the real
backend's emergency stop. -/
def demoDriverEnv : DriverEnv :=
  { servoOn := fun _ => true
    servoOnFails := fun _ => false
    turnOffFails := fun a => a = AxisId.X1
    moveFails := fun _ => false
    status := fun _ _ => DriverStatus.inPosition
    elapsed := fun _ => 0 }

/-- Demo requests for the orchestration endpoint: move `X1` then `Y1`. -/
def demoReqs : List MoveReq :=
  [⟨AxisId.X1, 100, false⟩, ⟨AxisId.Y1, 200, false⟩]

/-- Orchestration oracle in which the `move_axis` call of the first
request raises and everything else succeeds, every position reading 5. -/
def demoOrchEnv : OrchEnv :=
  { moveRes := fun i => if i = 0 then .error .servo else .ok ()
    waitRes := fun _ => .ok ()
    posTry := fun _ => .ok 5
    posExc := fun _ => .ok 5 }

/-- The per-axis responses `move_multiple_axes` builds for `demoReqs`
under `demoOrchEnv` with waiting requested. -/
def demoResps : List MovementResp :=
  [⟨AxisId.X1, .completed, 5⟩, ⟨AxisId.Y1, .completed, 5⟩]

/-- Alignment oracle: still aligning at poll 0, successful at poll 1,
with the optical power read returning 3. -/
def demoAlignEnv : AlignEnv :=
  { status := fun n => if n = 0 then .aligning else .success
    elapsed := fun n => n
    power := fun _ => .ok 3 }

section FrameLemmas

variable (a b : AxisId) (s : MState)

theorem cancelTask_connected : (cancelTask a s).connected = s.connected := by
  unfold cancelTask
  repeat' split
  all_goals rfl

theorem cancelTask_pos : (cancelTask a s).pos = s.pos := by
  unfold cancelTask
  repeat' split
  all_goals rfl

theorem cancelTask_servo : (cancelTask a s).servo = s.servo := by
  unfold cancelTask
  repeat' split
  all_goals rfl

theorem cancelTask_homed : (cancelTask a s).homed = s.homed := by
  unfold cancelTask
  repeat' split
  all_goals rfl

theorem cancelTask_task_self : (cancelTask a s).task a = none := by
  unfold cancelTask
  repeat' split
  all_goals simp_all

theorem cancelTask_task_ne (hne : b ≠ a) : (cancelTask a s).task b = s.task b := by
  unfold cancelTask
  repeat' split
  all_goals simp [Function.update_noteq hne]

theorem cancelTask_moving_ne (hne : b ≠ a) : (cancelTask a s).moving b = s.moving b := by
  unfold cancelTask
  repeat' split
  all_goals simp [Function.update_noteq hne]

theorem taskStep_connected : (taskStep a s).connected = s.connected := by
  unfold taskStep
  repeat' split
  all_goals rfl

theorem taskStep_servo : (taskStep a s).servo = s.servo := by
  unfold taskStep
  repeat' split
  all_goals rfl

theorem taskStep_homed : (taskStep a s).homed = s.homed := by
  unfold taskStep
  repeat' split
  all_goals rfl

theorem taskStep_pos_ne (hne : b ≠ a) : (taskStep a s).pos b = s.pos b := by
  unfold taskStep
  repeat' split
  all_goals simp [Function.update_noteq hne]

theorem taskStep_moving_ne (hne : b ≠ a) : (taskStep a s).moving b = s.moving b := by
  unfold taskStep
  repeat' split
  all_goals simp [Function.update_noteq hne]

theorem taskStep_task_ne (hne : b ≠ a) : (taskStep a s).task b = s.task b := by
  unfold taskStep
  repeat' split
  all_goals simp [Function.update_noteq hne]

theorem runTaskFuel_connected (f : ℕ) : ∀ s, (runTaskFuel f a s).connected = s.connected := by
  induction f with
  | zero => intro s; rfl
  | succ f ih =>
    intro s
    unfold runTaskFuel
    split
    · rfl
    · rw [ih, taskStep_connected]

theorem runTaskFuel_servo (f : ℕ) : ∀ s, (runTaskFuel f a s).servo = s.servo := by
  induction f with
  | zero => intro s; rfl
  | succ f ih =>
    intro s
    unfold runTaskFuel
    split
    · rfl
    · rw [ih, taskStep_servo]

theorem runTaskFuel_homed (f : ℕ) : ∀ s, (runTaskFuel f a s).homed = s.homed := by
  induction f with
  | zero => intro s; rfl
  | succ f ih =>
    intro s
    unfold runTaskFuel
    split
    · rfl
    · rw [ih, taskStep_homed]

end FrameLemmas

section InvariantPreservation

variable (a : AxisId) (s : MState)

theorem cancelTask_moving_self (hinv : movingIffStartedTask s) :
    (cancelTask a s).moving a = false := by
  cases hm : s.moving a with
  | false =>
    unfold cancelTask
    repeat' split
    · exact hm
    · exact hm
    · simp
  | true =>
    obtain ⟨t, ht, hpc⟩ := (hinv a).1 hm
    obtain ⟨st, tg, sp, pc⟩ := t
    unfold cancelTask
    rw [ht]
    cases pc with
    | notStarted => exact absurd rfl hpc
    | suspended i => simp

theorem movingIffStartedTask_cancelTask (hinv : movingIffStartedTask s) :
    movingIffStartedTask (cancelTask a s) := by
  intro b
  by_cases hb : b = a
  · subst hb
    rw [cancelTask_moving_self b s hinv, cancelTask_task_self]
    simp
  · rw [cancelTask_moving_ne a b s hb, cancelTask_task_ne a b s hb]
    exact hinv b

theorem movingIffStartedTask_taskStep (hinv : movingIffStartedTask s) :
    movingIffStartedTask (taskStep a s) := by
  intro b
  by_cases hb : b = a
  · subst hb
    cases ht : s.task b with
    | none =>
      unfold taskStep
      rw [ht]
      exact hinv b
    | some t =>
      obtain ⟨st, tg, sp, pc⟩ := t
      cases pc with
      | notStarted =>
        simp only [taskStep, ht]
        simp
      | suspended i =>
        by_cases hi : i < MTask.steps ⟨st, tg, sp, TaskPC.suspended i⟩
        · have hmv : s.moving b = true := (hinv b).2 ⟨_, ht, by simp⟩
          simp only [taskStep, ht, if_pos hi]
          simp [hmv]
        · simp only [taskStep, ht, if_neg hi]
          simp
  · rw [taskStep_moving_ne a b s hb, taskStep_task_ne a b s hb]
    exact hinv b

theorem movingIffStartedTask_runTaskFuel (f : ℕ) :
    ∀ s, movingIffStartedTask s → movingIffStartedTask (runTaskFuel f a s) := by
  induction f with
  | zero => intro s h; exact h
  | succ f ih =>
    intro s h
    unfold runTaskFuel
    split
    · exact h
    · exact ih _ (movingIffStartedTask_taskStep a s h)

theorem foldl_preserves {P : MState → Prop} {g : MState → AxisId → MState}
    (hg : ∀ st x, P st → P (g st x)) :
    ∀ (l : List AxisId) (st : MState), P st → P (l.foldl g st) := by
  intro l
  induction l with
  | nil => intro st h; exact h
  | cons x xs ih => intro st h; exact ih _ (hg st x h)

end InvariantPreservation

section OperationInvariants

variable (a : AxisId) (s : MState)

theorem movingInv_init : movingIffStartedTask initState := by
  intro a
  simp [initState]

theorem movingInv_connect (h : movingIffStartedTask s) :
    movingIffStartedTask (MockBackend.connect s).1 := h

theorem movingInv_disconnect (h : movingIffStartedTask s) :
    movingIffStartedTask (MockBackend.disconnect s).1 :=
  foldl_preserves (fun st x hx => movingIffStartedTask_cancelTask x st hx) allAxes s h

theorem movingInv_enable_servo (h : movingIffStartedTask s) :
    movingIffStartedTask (MockBackend.enable_servo a s).1 := by
  unfold MockBackend.enable_servo
  split
  · exact h
  · exact h

theorem movingInv_disable_servo (h : movingIffStartedTask s) :
    movingIffStartedTask (MockBackend.disable_servo a s).1 := by
  unfold MockBackend.disable_servo
  split
  · exact h
  · by_cases hm : s.moving a
    · simp only [hm, if_true]
      exact movingIffStartedTask_cancelTask a s h
    · simp only [hm, if_false]
      exact h

theorem movingInv_startTask (st tg sp : ℚ) (h : movingIffStartedTask s) :
    movingIffStartedTask
      { cancelTask a s with
        task := Function.update (cancelTask a s).task a
          (some ⟨st, tg, sp, TaskPC.notStarted⟩) } := by
  intro b
  by_cases hb : b = a
  · subst hb
    simp only [Function.update_same]
    rw [cancelTask_moving_self b s h]
    simp
  · simp only [Function.update_noteq hb]
    rw [cancelTask_moving_ne a b s hb, cancelTask_task_ne a b s hb]
    exact h b

theorem movingInv_move_axis (target : ℚ) (relative : Bool) (speed : Option ℚ)
    (h : movingIffStartedTask s) :
    movingIffStartedTask (MockBackend.move_axis a target relative speed s).1 := by
  unfold MockBackend.move_axis
  dsimp only
  repeat' split
  all_goals
    first
    | exact h
    | exact movingIffStartedTask_cancelTask a s h
    | exact movingInv_startTask a s _ _ _ h

theorem movingInv_wait (timeout : ℚ) (h : movingIffStartedTask s) :
    movingIffStartedTask (MockBackend.wait_for_motion_complete a timeout s).1 := by
  unfold MockBackend.wait_for_motion_complete
  split
  · exact h
  · split
    · exact h
    · split
      · exact movingIffStartedTask_runTaskFuel a _ s h
      · exact movingIffStartedTask_cancelTask a _
          (movingIffStartedTask_runTaskFuel a _ s h)

theorem movingInv_home_axis (h : movingIffStartedTask s) :
    movingIffStartedTask (MockBackend.home_axis a s).1 := by
  unfold MockBackend.home_axis
  split
  · exact h
  · split
    · exact h
    · split
      · next s1 e heq =>
        have h1 := congrArg Prod.fst heq
        simp only at h1
        rw [← h1]
        exact movingInv_move_axis a s 0 false none h
      · next s1 u heq =>
        have h1 := congrArg Prod.fst heq
        simp only at h1
        split
        · next s2 e heq2 =>
          have h2 := congrArg Prod.fst heq2
          simp only at h2
          rw [← h2, ← h1]
          exact movingInv_wait a _ 30 (movingInv_move_axis a s 0 false none h)
        · next s2 u2 heq2 =>
          have h2 := congrArg Prod.fst heq2
          simp only at h2
          intro b
          simp only
          rw [← h2, ← h1]
          exact movingInv_wait a _ 30 (movingInv_move_axis a s 0 false none h) b

theorem movingInv_emergency_stop (h : movingIffStartedTask s) :
    movingIffStartedTask (MockBackend.emergency_stop s).1 := by
  refine foldl_preserves (fun st x hx => ?_) allAxes s h
  by_cases hm : st.moving x
  · simp only [hm, if_true]
    exact movingIffStartedTask_cancelTask x st hx
  · simp only [hm, if_false]
    exact hx

/-- Every reachable state of the mock backend satisfies the corrected
invariant relating the moving flag and started tasks. -/
theorem reachable_movingIffStartedTask : ∀ s, Reachable s → movingIffStartedTask s := by
  intro s h
  induction h with
  | init => exact movingInv_init
  | connect _ ih => exact movingInv_connect _ ih
  | disconnect _ ih => exact movingInv_disconnect _ ih
  | enableServo a _ ih => exact movingInv_enable_servo a _ ih
  | disableServo a _ ih => exact movingInv_disable_servo a _ ih
  | moveAxis a t r sp _ ih => exact movingInv_move_axis a _ t r sp ih
  | waitForMotion a tmo _ ih => exact movingInv_wait a _ tmo ih
  | homeAxis a _ ih => exact movingInv_home_axis a _ ih
  | emergencyStop _ ih => exact movingInv_emergency_stop _ ih
  | step a _ ih => exact movingIffStartedTask_taskStep a _ ih

end OperationInvariants

section TaskCompletion

theorem runTaskFuel_none (a : AxisId) (f : ℕ) (s : MState) (h : s.task a = none) :
    runTaskFuel f a s = s := by
  cases f with
  | zero => rfl
  | succ f =>
    unfold runTaskFuel
    rw [h]

theorem MTask.remaining_pos (t : MTask) : 1 ≤ t.remaining := by
  obtain ⟨st, tg, sp, pc⟩ := t
  cases pc <;> simp [MTask.remaining]

theorem runTaskFuel_completes (a : AxisId) :
    ∀ (f : ℕ) (s : MState) (t : MTask), s.task a = some t → t.remaining ≤ f →
      (runTaskFuel f a s).task a = none ∧ (runTaskFuel f a s).pos a = t.target ∧
        (runTaskFuel f a s).moving a = false := by
  intro f
  induction f with
  | zero =>
    intro s t ht hle
    exact absurd (le_trans t.remaining_pos hle) (by omega)
  | succ f ih =>
    intro s t ht hle
    unfold runTaskFuel
    rw [ht]
    obtain ⟨st, tg, sp, pc⟩ := t
    cases pc with
    | notStarted =>
      have hstep : taskStep a s =
          { s with
            moving := Function.update s.moving a true
            pos := Function.update s.pos a st
            task := Function.update s.task a
              (some ⟨st, tg, sp, TaskPC.suspended 0⟩) } := by
        simp [taskStep, ht]
      rw [hstep]
      refine ih _ ⟨st, tg, sp, TaskPC.suspended 0⟩ (by simp) ?_
      simp only [MTask.remaining, MTask.steps] at hle ⊢
      omega
    | suspended i =>
      by_cases hi : i < MTask.steps ⟨st, tg, sp, TaskPC.suspended i⟩
      · have hstep : taskStep a s =
            { s with
              pos := Function.update s.pos a
                (st + (tg - st) * ((i + 1 : ℚ) / (MTask.steps ⟨st, tg, sp, TaskPC.suspended i⟩ : ℚ)))
              task := Function.update s.task a
                (some ⟨st, tg, sp, TaskPC.suspended (i + 1)⟩) } := by
          simp [taskStep, ht, hi]
        rw [hstep]
        refine ih _ ⟨st, tg, sp, TaskPC.suspended (i + 1)⟩ (by simp) ?_
        simp only [MTask.remaining, MTask.steps] at hle hi ⊢
        omega
      · have hstep : taskStep a s =
            { s with
              pos := Function.update s.pos a tg
              moving := Function.update s.moving a false
              task := Function.update s.task a none } := by
          simp [taskStep, ht, hi]
        rw [hstep]
        rw [runTaskFuel_none a f _ (by simp)]
        simp

end TaskCompletion

section EmergencyStopLemmas

/-- The per-axis body of the mock `emergency_stop` loop. -/
def estopBody (st : MState) (x : AxisId) : MState :=
  if st.moving x then cancelTask x st else st

theorem estopBody_moving_false (st : MState) (x a : AxisId)
    (h : st.moving a = false) : (estopBody st x).moving a = false := by
  unfold estopBody
  by_cases hx : x = a
  · subst hx
    rw [if_neg (by simp [h])]
    exact h
  · split
    · rw [cancelTask_moving_ne x a st (fun hc => hx hc.symm)]
      exact h
    · exact h

theorem estopBody_cleared (st : MState) (x a : AxisId)
    (h : st.moving a = false) (h2 : st.task a = none) :
    (estopBody st x).moving a = false ∧ (estopBody st x).task a = none := by
  unfold estopBody
  by_cases hx : x = a
  · subst hx
    rw [if_neg (by simp [h])]
    exact ⟨h, h2⟩
  · have hne : a ≠ x := fun hc => hx hc.symm
    split
    · rw [cancelTask_moving_ne x a st hne, cancelTask_task_ne x a st hne]
      exact ⟨h, h2⟩
    · exact ⟨h, h2⟩

theorem estopBody_inv (st : MState) (x : AxisId) (h : movingIffStartedTask st) :
    movingIffStartedTask (estopBody st x) := by
  unfold estopBody
  split
  · exact movingIffStartedTask_cancelTask x st h
  · exact h

theorem estopFold_clears :
    ∀ (l : List AxisId) (st : MState) (a : AxisId), movingIffStartedTask st →
      a ∈ l → st.moving a = true →
      ((l.foldl estopBody st).moving a = false ∧ (l.foldl estopBody st).task a = none) := by
  intro l
  induction l with
  | nil => intro st a _ hmem; exact absurd hmem (List.not_mem_nil a)
  | cons x xs ih =>
    intro st a hinv hmem hmv
    by_cases hx : x = a
    · subst hx
      have hcl : (estopBody st x).moving x = false ∧ (estopBody st x).task x = none := by
        unfold estopBody
        rw [if_pos hmv]
        exact ⟨cancelTask_moving_self x st hinv, cancelTask_task_self x st⟩
      simp only [List.foldl_cons]
      exact foldl_preserves (P := fun st2 => st2.moving x = false ∧ st2.task x = none)
        (fun st2 y hy => estopBody_cleared st2 y x hy.1 hy.2) xs _ hcl
    · have hmem2 : a ∈ xs := by
        cases hmem with
        | head => exact absurd rfl hx
        | tail _ h => exact h
      simp only [List.foldl_cons]
      refine ih (estopBody st x) a (estopBody_inv st x hinv) hmem2 ?_
      unfold estopBody
      have hne : a ≠ x := fun hc => hx hc.symm
      split
      · rw [cancelTask_moving_ne x a st hne]
        exact hmv
      · exact hmv

theorem estopFold_moving_false (l : List AxisId) (st : MState) (a : AxisId)
    (h : st.moving a = false) : ((l.foldl estopBody st).moving a = false) :=
  foldl_preserves (fun st2 y hy => estopBody_moving_false st2 y a hy) l st h

end EmergencyStopLemmas

section ClaimsC1toC3

theorem pendingMoveState_reachable : Reachable pendingMoveState :=
  Reachable.moveAxis AxisId.X1 100000 false none
    (Reachable.enableServo AxisId.X1 (Reachable.connect Reachable.init))

theorem startedMoveState_reachable : Reachable startedMoveState :=
  Reachable.step AxisId.X1 pendingMoveState_reachable

/-- C1: the claim's invariant — `isMoving` true iff a live MotionTask
exists — is false: in the reachable state right after `move_axis` returns
(before the created task's first scheduler turn), a live task exists for
`X1` while `isMoving` is still false. -/
theorem C1_counterexample : ¬ (∀ s, Reachable s → movingIffLiveTask s) := by
  intro h
  have h1 := (h pendingMoveState pendingMoveState_reachable AxisId.X1).mpr
  have h2 : (pendingMoveState.task AxisId.X1).isSome = true := rfl
  have h3 := h1 h2
  rw [show pendingMoveState.moving AxisId.X1 = false from rfl] at h3
  exact Bool.false_ne_true h3

/-- C1 (amended): in every state reachable by any sequence of backend
operations and task steps, `isMoving` is true iff a live MotionTask exists
that has begun executing; in particular `isMoving = true` still implies a
live task exists, but a created-and-not-yet-started task is live while
`isMoving` is still false. -/
theorem C1_moving_invariant (s : MState) (h : Reachable s) :
    movingIffStartedTask s ∧
      ∀ a : AxisId, s.moving a = true → (s.task a).isSome := by
  have hinv := reachable_movingIffStartedTask s h
  refine ⟨hinv, fun a hm => ?_⟩
  obtain ⟨t, ht, _⟩ := (hinv a).1 hm
  rw [ht]
  rfl

/-- Witness for C1's amended invariant at a concrete reachable state. -/
theorem C1_moving_invariant_witness :
    movingIffStartedTask startedMoveState ∧
      ∀ a : AxisId, startedMoveState.moving a = true →
        (startedMoveState.task a).isSome :=
  C1_moving_invariant startedMoveState startedMoveState_reachable

/-- C2: the claim's step count `max(round(duration × 10), 1)` differs from
the code's `max(int(duration * 10), 1)`: for a 150 µm move at 1000 µm/s
(duration 0.15 s) the code subdivides into 1 step where the claim says 2. -/
theorem stepsOf_demo : stepsOf 0 150 1000 = 1 := by
  have hd : durationOf 0 150 1000 * 10 = 3 / 2 := by
    norm_num [durationOf]
  have hf : ⌊(3 / 2 : ℚ)⌋ = 1 := by
    rw [Int.floor_eq_iff] ; norm_num
  simp [stepsOf, hd, hf]

theorem stepsSpecRound_demo : stepsSpecRound 0 150 1000 = 2 := by
  have hd : durationOf 0 150 1000 * 10 = 3 / 2 := by
    norm_num [durationOf]
  have hr : round (3 / 2 : ℚ) = 2 := by
    rw [round_eq]
    rw [show (3 / 2 : ℚ) + 1 / 2 = 2 by norm_num]
    rw [Int.floor_eq_iff] ; norm_num
  simp [stepsSpecRound, hd, hr]

theorem C2_counterexample :
    stepsOf 0 150 1000 = 1 ∧ stepsSpecRound 0 150 1000 = 2 ∧
      stepsOf 0 150 1000 ≠ stepsSpecRound 0 150 1000 := by
  refine ⟨stepsOf_demo, stepsSpecRound_demo, ?_⟩
  rw [stepsOf_demo, stepsSpecRound_demo]
  omega

theorem iterate_taskStep_spec (a : AxisId) (st tg sp : ℚ) (s : MState)
    (hs : s.task a = some ⟨st, tg, sp, TaskPC.notStarted⟩) :
    ∀ k, k ≤ stepsOf st tg sp →
      ((taskStep a)^[k + 1] s).task a = some ⟨st, tg, sp, TaskPC.suspended k⟩ ∧
      ((taskStep a)^[k + 1] s).pos a =
        st + (tg - st) * ((k : ℚ) / (stepsOf st tg sp : ℚ)) ∧
      ((taskStep a)^[k + 1] s).moving a = true := by
  intro k
  induction k with
  | zero =>
    intro _
    have hstep : taskStep a s =
        { s with
          moving := Function.update s.moving a true
          pos := Function.update s.pos a st
          task := Function.update s.task a
            (some ⟨st, tg, sp, TaskPC.suspended 0⟩) } := by
      simp [taskStep, hs]
    rw [Function.iterate_one, hstep]
    refine ⟨by simp, ?_, by simp⟩
    simp

  | succ k ih =>
    intro hk
    obtain ⟨htask, hpos, hmov⟩ := ih (Nat.le_of_succ_le hk)
    have hlt : k < stepsOf st tg sp := hk
    rw [show k + 1 + 1 = (k + 1) + 1 from rfl, Function.iterate_succ_apply']
    generalize hgen : (taskStep a)^[k + 1] s = u at htask hpos hmov
    have hstep : taskStep a u =
        { u with
          pos := Function.update u.pos a
            (st + (tg - st) * (((k : ℚ) + 1) / (stepsOf st tg sp : ℚ)))
          task := Function.update u.task a
            (some ⟨st, tg, sp, TaskPC.suspended (k + 1)⟩) } := by
      simp [taskStep, htask, hlt, MTask.steps]
    rw [hstep]
    refine ⟨by simp, ?_, hmov⟩
    simp only [Function.update_same]
    push_cast
    ring

theorem taskStep_finishes (a : AxisId) (st tg sp : ℚ) (s : MState)
    (hs : s.task a = some ⟨st, tg, sp, TaskPC.notStarted⟩) :
    ((taskStep a)^[stepsOf st tg sp + 2] s).pos a = tg ∧
    ((taskStep a)^[stepsOf st tg sp + 2] s).moving a = false ∧
    ((taskStep a)^[stepsOf st tg sp + 2] s).task a = none := by
  obtain ⟨htask, hpos, hmov⟩ :=
    iterate_taskStep_spec a st tg sp s hs (stepsOf st tg sp) le_rfl
  have hnlt : ¬ (stepsOf st tg sp <
      MTask.steps ⟨st, tg, sp, TaskPC.suspended (stepsOf st tg sp)⟩) := by
    simp [MTask.steps]
  rw [show stepsOf st tg sp + 2 = (stepsOf st tg sp + 1) + 1 from rfl,
    Function.iterate_succ_apply']
  generalize hgen : (taskStep a)^[stepsOf st tg sp + 1] s = u at htask hpos hmov
  have hstep : taskStep a u =
      { u with
        pos := Function.update u.pos a tg
        moving := Function.update u.moving a false
        task := Function.update u.task a none } := by
    simp [taskStep, htask, hnlt]
  rw [hstep]
  refine ⟨by simp, by simp, by simp⟩

/-- C2 (amended): for every accepted move, the motion task computes
`duration = |target-start|/speed` (0 when speed ≤ 0, i.e. instantaneous),
subdivides into `steps = max(int(duration*10), 1)` increments — truncation,
not rounding — sets `position = start + (target-start)*(k/steps)` at each
increment, and finishes with the position exactly equal to the target. -/
theorem C2_motion_algorithm (a : AxisId) (s : MState) (st tg sp : ℚ)
    (hs : s.task a = some ⟨st, tg, sp, TaskPC.notStarted⟩) :
    trajectoryOk a s st tg sp := by
  refine ⟨rfl, ?_, ?_, taskStep_finishes a st tg sp s hs⟩
  · intro hsp
    simp [durationOf, not_lt.mpr hsp]
  · intro k hk
    exact ⟨(iterate_taskStep_spec a st tg sp s hs k hk).2.1,
      (iterate_taskStep_spec a st tg sp s hs k hk).2.2⟩

/-- Witness for C2's amended algorithm at a concrete accepted move. -/
theorem C2_motion_algorithm_witness :
    trajectoryOk AxisId.X1 pendingMoveState 0 100000 1000 :=
  C2_motion_algorithm AxisId.X1 pendingMoveState 0 100000 1000 rfl

/-- C3: the claim that a failing `move_axis` causes no state mutation at
all is false: in a reachable state where `X1` has a live, started motion
task, `move_axis(X1, 600000, absolute)` raises the out-of-bounds
`MovementError` but has already cancelled-and-awaited the previous task
(the moving flag drops from true to false). -/
theorem C3_counterexample : ¬ claimC3 := by
  intro h
  have herr : isErr (MockBackend.move_axis AxisId.X1 600000 false none
      startedMoveState).2 = true := rfl
  have heq := h startedMoveState startedMoveState_reachable
    AxisId.X1 600000 false none herr
  have hmv := congrFun (congrArg MState.moving heq) AxisId.X1
  rw [show (MockBackend.move_axis AxisId.X1 600000 false none
      startedMoveState).1.moving AxisId.X1 = false from rfl,
    show startedMoveState.moving AxisId.X1 = true from rfl] at hmv
  exact Bool.false_ne_true hmv

/-- C3 (amended): the not-connected and servo-disabled failures of
`move_axis` are raised before any mutation; the out-of-bounds failure is
raised before any new task is started and leaves position, servo and homed
flags and all other axes untouched, but a previously live MotionTask for
the axis has already been cancelled-and-awaited when it is raised. -/
theorem C3_move_error_contract (s : MState) (a : AxisId) (t : ℚ) (rel : Bool)
    (sp : Option ℚ) (hinv : movingIffStartedTask s) :
    moveErrorContract s a t rel sp := by
  unfold moveErrorContract MockBackend.move_axis
  dsimp only
  repeat' split
  · exact ⟨fun _ => rfl, fun hx => by simp at hx, fun hx => by simp at hx⟩
  · exact ⟨fun hx => by simp at hx, fun _ => rfl, fun hx => by simp at hx⟩
  · refine ⟨fun hx => by simp at hx, fun hx => by simp at hx, fun _ => ?_⟩
    refine ⟨cancelTask_pos a s, cancelTask_servo a s, cancelTask_homed a s,
      cancelTask_connected a s, cancelTask_task_self a s,
      cancelTask_moving_self a s hinv, fun b hb => ?_⟩
    exact ⟨cancelTask_task_ne a b s hb, cancelTask_moving_ne a b s hb⟩
  · exact ⟨fun hx => by simp at hx, fun hx => by simp at hx, fun hx => by simp at hx⟩
  · refine ⟨fun hx => by simp at hx, fun hx => by simp at hx, fun _ => ?_⟩
    refine ⟨cancelTask_pos a s, cancelTask_servo a s, cancelTask_homed a s,
      cancelTask_connected a s, cancelTask_task_self a s,
      cancelTask_moving_self a s hinv, fun b hb => ?_⟩
    exact ⟨cancelTask_task_ne a b s hb, cancelTask_moving_ne a b s hb⟩
  · exact ⟨fun hx => by simp at hx, fun hx => by simp at hx, fun hx => by simp at hx⟩

/-- Witness for C3's amended error contract at a concrete state with a
live started task and an out-of-bounds request. -/
theorem C3_move_error_contract_witness :
    moveErrorContract startedMoveState AxisId.X1 600000 false none :=
  C3_move_error_contract startedMoveState AxisId.X1 600000 false none
    (reachable_movingIffStartedTask startedMoveState startedMoveState_reachable)

end ClaimsC1toC3

section ClaimsC4toC6

/-- C4: the claim that `emergencyStop` cancels every live MotionTask is
false on the mock engine: in the reachable state where a task for `X1` has
been created but not yet scheduled (`isMoving` still false), the
`if self._is_moving[axis]` guard skips the axis and the live task
survives the emergency stop. -/
theorem C4_counterexample : ¬ claimC4 := by
  intro h
  have h1 := h pendingMoveState pendingMoveState_reachable AxisId.X1
  rw [show (MockBackend.emergency_stop pendingMoveState).1.task AxisId.X1 =
      some ⟨0, 100000, 1000, TaskPC.notStarted⟩ from rfl] at h1
  exact Option.noConfusion h1

/-- C4 (amended): the mock `emergencyStop` returns normally, leaves
`isMoving = false` on every axis, and cancels the task of every axis that
was moving (a created-but-unstarted task is skipped); the real
`emergencyStop` swallows every per-axis driver failure, attempts all 12
axes in order when connected, and returns normally. -/
theorem C4_emergency_stop (s : MState) (hinv : movingIffStartedTask s)
    (env : DriverEnv) (c : Bool) :
    estopMockContract s ∧
      (RealBackend.emergency_stop env c).2 = .ok () ∧
      (c = true → (RealBackend.emergency_stop env c).1.map Prod.fst = allAxes) := by
  refine ⟨⟨rfl, fun a => ?_⟩, ?_, ?_⟩
  · constructor
    · cases hm : s.moving a with
      | false =>
        exact estopFold_moving_false allAxes s a hm
      | true =>
        exact (estopFold_clears allAxes s a hinv (by cases a <;> simp [allAxes]) hm).1
    · intro hm
      exact (estopFold_clears allAxes s a hinv (by cases a <;> simp [allAxes]) hm).2
  · unfold RealBackend.emergency_stop
    split
    · rfl
    · rfl
  · intro hc
    unfold RealBackend.emergency_stop
    rw [if_neg (by simp [hc])]
    simp [allAxes]

/-- Witness for C4's amended behaviour at a concrete moving state and a
driver oracle with one failing axis stop. -/
theorem C4_emergency_stop_witness :
    estopMockContract startedMoveState ∧
      (RealBackend.emergency_stop demoDriverEnv true).2 = .ok () ∧
      (true = true →
        (RealBackend.emergency_stop demoDriverEnv true).1.map Prod.fst = allAxes) :=
  C4_emergency_stop startedMoveState
    (reachable_movingIffStartedTask startedMoveState startedMoveState_reachable)
    demoDriverEnv true

/-- C5: the claim that `disableServo` never leaves a motion task running on
a servo-off axis is false: with a created-but-unstarted task on `X1`
(`isMoving` still false), `disable_servo(X1)` returns normally, clears the
servo flag, and leaves the live task in place. -/
theorem C5_counterexample : ¬ claimC5 := by
  intro h
  have h1 := h pendingMoveState pendingMoveState_reachable AxisId.X1 rfl
  rw [show (MockBackend.disable_servo AxisId.X1 pendingMoveState).1.task AxisId.X1 =
      some ⟨0, 100000, 1000, TaskPC.notStarted⟩ from rfl] at h1
  exact Option.noConfusion h1

/-- C5 (amended): when connected, `disable_servo` returns normally with
`isMoving = false` and `servoEnabled = false` for the axis, and
cancels-and-awaits the live task of an axis that was moving before
clearing the flag; a created-but-unstarted task (moving flag still false)
is not cancelled.  When disconnected it raises without mutating. -/
theorem C5_disable_servo (s : MState) (a : AxisId)
    (hinv : movingIffStartedTask s) : disableServoContract s a := by
  unfold disableServoContract MockBackend.disable_servo
  constructor
  · intro hc
    rw [if_pos (by simp [hc])]
    exact ⟨rfl, rfl⟩
  · intro hc
    rw [if_neg (by simp [hc])]
    dsimp only
    refine ⟨rfl, ?_, by simp, ?_⟩
    · by_cases hm : s.moving a = true
      · rw [if_pos hm]
        exact cancelTask_moving_self a s hinv
      · rw [if_neg hm]
        simpa using hm
    · intro hm2
      rw [if_pos hm2]
      exact cancelTask_task_self a s

/-- Witness for C5's amended behaviour on a connected state with a moving
axis. -/
theorem C5_disable_servo_witness : disableServoContract startedMoveState AxisId.X1 :=
  C5_disable_servo startedMoveState AxisId.X1
    (reachable_movingIffStartedTask startedMoveState startedMoveState_reachable)

end ClaimsC4toC6

section ClaimC6

theorem mock_move_zero (a : AxisId) (s : MState) (hc : s.connected = true)
    (hsv : s.servo a = true) :
    MockBackend.move_axis a 0 false none s =
      ({ cancelTask a s with
          task := Function.update (cancelTask a s).task a
            (some ⟨(cancelTask a s).pos a, 0, 1000, TaskPC.notStarted⟩) }, .ok ()) := by
  unfold MockBackend.move_axis
  rw [if_neg (by simp [hc]), if_neg (by simp [hsv])]
  dsimp only
  rw [if_neg (by norm_num)]
  rfl

theorem mock_home_contract (s : MState) (a : AxisId) : homeMockContract s a := by
  unfold homeMockContract MockBackend.home_axis
  refine ⟨?_, ?_, ?_⟩
  · intro hc
    rw [if_pos (by simp [hc])]
  · intro hc hsv
    rw [if_neg (by simp [hc]), if_pos (by simp [hsv])]
  · intro hc hsv
    rw [if_neg (by simp [hc]), if_neg (by simp [hsv]), mock_move_zero a s hc hsv]
    dsimp only
    have hcc : (cancelTask a s).connected = true := by
      rw [cancelTask_connected]
      exact hc
    have htask2 :
        ({ cancelTask a s with
            task := Function.update (cancelTask a s).task a
              (some ⟨(cancelTask a s).pos a, 0, 1000, TaskPC.notStarted⟩) } : MState).task a =
          some ⟨(cancelTask a s).pos a, 0, 1000, TaskPC.notStarted⟩ := by
      simp
    by_cases htm :
        ((MTask.sleepsLeft ⟨(cancelTask a s).pos a, 0, 1000, TaskPC.notStarted⟩ : ℚ) *
          MTask.sleepPerStep ⟨(cancelTask a s).pos a, 0, 1000, TaskPC.notStarted⟩ ≤ 30)
    · have hwait : MockBackend.wait_for_motion_complete a 30
          { cancelTask a s with
            task := Function.update (cancelTask a s).task a
              (some ⟨(cancelTask a s).pos a, 0, 1000, TaskPC.notStarted⟩) } =
          (runTaskFuel
            (MTask.remaining ⟨(cancelTask a s).pos a, 0, 1000, TaskPC.notStarted⟩) a
            { cancelTask a s with
              task := Function.update (cancelTask a s).task a
                (some ⟨(cancelTask a s).pos a, 0, 1000, TaskPC.notStarted⟩) }, .ok ()) := by
        unfold MockBackend.wait_for_motion_complete
        rw [if_neg (by simp [hcc])]
        simp only [Function.update_same]
        rw [if_pos htm]
      rw [hwait]
      dsimp only
      obtain ⟨hT, hP, hM⟩ := runTaskFuel_completes a
        (MTask.remaining ⟨(cancelTask a s).pos a, 0, 1000, TaskPC.notStarted⟩)
        { cancelTask a s with
          task := Function.update (cancelTask a s).task a
            (some ⟨(cancelTask a s).pos a, 0, 1000, TaskPC.notStarted⟩) }
        ⟨(cancelTask a s).pos a, 0, 1000, TaskPC.notStarted⟩ htask2 le_rfl
      exact ⟨Or.inl rfl, fun _ => ⟨hP, by simp, hM, hT⟩⟩
    · have hwait : MockBackend.wait_for_motion_complete a 30
          { cancelTask a s with
            task := Function.update (cancelTask a s).task a
              (some ⟨(cancelTask a s).pos a, 0, 1000, TaskPC.notStarted⟩) } =
          (cancelTask a (runTaskFuel
            (MTask.stepsWithin ⟨(cancelTask a s).pos a, 0, 1000, TaskPC.notStarted⟩ 30) a
            { cancelTask a s with
              task := Function.update (cancelTask a s).task a
                (some ⟨(cancelTask a s).pos a, 0, 1000, TaskPC.notStarted⟩) }),
            .error .timeout) := by
        unfold MockBackend.wait_for_motion_complete
        rw [if_neg (by simp [hcc])]
        simp only [Function.update_same]
        rw [if_neg htm]
      rw [hwait]
      dsimp only
      exact ⟨Or.inr rfl, fun hok => absurd hok (by simp)⟩

/-- C6: the claim that `homeAxis` fails with the ServoDisabled error kind
on both engines is false for the hardware-bound engine: with the servo off,
its `move_axis` raises `ServoError` but `home_axis` catches every
exception and re-raises `MovementError`. -/
theorem C6_counterexample :
    RealBackend.home_axis servoOffEnv true AxisId.X1 (fun _ => false) 5 =
      some ((fun _ => false), .error .movement) ∧
    RealBackend.move_axis servoOffEnv true AxisId.X1 = .error .servo ∧
    MErr.movement ≠ MErr.servo := by
  refine ⟨rfl, rfl, by simp⟩

/-- C6 (amended): on the mock engine `homeAxis` is `moveAxis(axis, 0,
absolute)` followed by the wait, ends exactly at position 0 with
`isHomed = true` and not moving, and fails with the ServoDisabled
(`ServoError`) kind exactly as `moveAxis` does; on the real engine the
same servo-off precondition makes `moveAxis` raise `ServoError` but
`homeAxis` re-raises it as `MovementError`. -/
theorem C6_home_axis (s : MState) (a : AxisId) (env : DriverEnv) (c : Bool)
    (homed : AxisId → Bool) (fuel : ℕ) :
    homeMockContract s a ∧
      (c = true → env.servoOnFails a = false → env.servoOn a = false →
        RealBackend.home_axis env c a homed fuel = some (homed, .error .movement) ∧
        RealBackend.move_axis env c a = .error .servo) := by
  refine ⟨mock_home_contract s a, fun hc h1 h2 => ?_⟩
  have hmv : RealBackend.move_axis env c a = .error .servo := by
    unfold RealBackend.move_axis
    rw [if_neg (by simp [hc]), if_neg (by simp [h1]), if_pos (by simp [h2])]
  refine ⟨?_, hmv⟩
  unfold RealBackend.home_axis
  rw [hmv]

/-- Witness for C6's amended behaviour: concrete mock state with a moving
axis, and a concrete servo-off driver oracle. -/
theorem C6_home_axis_witness :
    homeMockContract startedMoveState AxisId.X1 ∧
      (RealBackend.home_axis servoOffEnv true AxisId.X1 (fun _ => false) 5 =
        some ((fun _ => false), .error .movement) ∧
      RealBackend.move_axis servoOffEnv true AxisId.X1 = .error .servo) :=
  ⟨(C6_home_axis startedMoveState AxisId.X1 servoOffEnv true (fun _ => false) 5).1,
    (C6_home_axis startedMoveState AxisId.X1 servoOffEnv true (fun _ => false) 5).2
      rfl rfl rfl⟩

end ClaimC6

section ClaimC7

/-- C7: `start()` is a pure no-op (state unchanged, nothing raised) from
every state other than `Stopped`; from `Stopped` it assigns `Starting` and
then `Ready` on a successful connect, while on a connect failure it
assigns `Error`, raises the connection failure, and a subsequent `start()`
from `Error` stays in `Error`. -/
theorem C7_daemon_start (st : DaemonState) (c : Bool) :
    (st ≠ DaemonState.stopped → daemonStart c st = ([], st, .ok ())) ∧
    (st = DaemonState.stopped → c = true →
      daemonStart c st =
        ([DaemonState.starting, DaemonState.ready], DaemonState.ready, .ok ())) ∧
    (st = DaemonState.stopped → c = false →
      daemonStart c st =
        ([DaemonState.starting, DaemonState.errorState], DaemonState.errorState,
          .error .connectionFailure)) ∧
    (daemonStart c DaemonState.errorState).2.1 = DaemonState.errorState := by
  refine ⟨?_, ?_, ?_, ?_⟩
  · intro h
    unfold daemonStart
    rw [if_pos h]
  · intro h hcb
    subst h
    subst hcb
    rfl
  · intro h hcb
    subst h
    subst hcb
    rfl
  · rfl

/-- Witness for C7 at the three concrete starting situations. -/
theorem C7_daemon_start_witness :
    daemonStart true DaemonState.ready = ([], DaemonState.ready, .ok ()) ∧
    daemonStart true DaemonState.stopped =
      ([DaemonState.starting, DaemonState.ready], DaemonState.ready, .ok ()) ∧
    daemonStart false DaemonState.stopped =
      ([DaemonState.starting, DaemonState.errorState], DaemonState.errorState,
        .error .connectionFailure) :=
  ⟨(C7_daemon_start DaemonState.ready true).1 (by simp),
    (C7_daemon_start DaemonState.stopped true).2.1 rfl rfl,
    (C7_daemon_start DaemonState.stopped false).2.2.1 rfl rfl⟩

end ClaimC7

section ClaimC9

/-- C9: on each poll, `wait_for_completion` returns a success result on
`Success` (optical power best-effort), a failure result on
`Failure`/`Error`, a failure result with message "Stopped by user" on
`Stopped`; otherwise it raises the timeout error when the elapsed time
exceeds the timeout and else sleeps and polls again — and every timeout
outcome stems from some poll that saw a non-terminal status past the
deadline. -/
theorem C9_wait_for_completion (env : AlignEnv) (timeout : ℚ) (f n : ℕ) :
    (env.status n = .success →
      waitForCompletion env timeout (f + 1) n =
        some (.ok ⟨true, .successMsg, (env.power n).toOption⟩)) ∧
    ((env.status n = .failure ∨ env.status n = .errorStatus) →
      waitForCompletion env timeout (f + 1) n =
        some (.ok ⟨false, .failedWithStatus (env.status n), (env.power n).toOption⟩)) ∧
    (env.status n = .stopped →
      waitForCompletion env timeout (f + 1) n =
        some (.ok ⟨false, .stoppedByUser, (env.power n).toOption⟩)) ∧
    ((env.status n = .idle ∨ env.status n = .aligning) →
      (env.elapsed n > timeout →
        waitForCompletion env timeout (f + 1) n = some (.error .alignTimeout)) ∧
      (¬ env.elapsed n > timeout →
        waitForCompletion env timeout (f + 1) n =
          waitForCompletion env timeout f (n + 1))) ∧
    (waitForCompletion env timeout f n = some (.error .alignTimeout) →
      ∃ k, (env.status k = .idle ∨ env.status k = .aligning) ∧
        env.elapsed k > timeout) := by
  refine ⟨?_, ?_, ?_, ?_, ?_⟩
  · intro h
    simp [waitForCompletion, buildResult, h]
  · intro h
    rcases h with h | h <;> simp [waitForCompletion, buildResult, h]
  · intro h
    simp [waitForCompletion, buildResult, h]
  · intro h
    constructor
    · intro ht
      rcases h with h | h <;> simp [waitForCompletion, h, ht]
    · intro ht
      rcases h with h | h <;> simp [waitForCompletion, h, ht]
  · induction f generalizing n with
    | zero =>
      intro h
      simp [waitForCompletion] at h
    | succ f ih =>
      intro h
      unfold waitForCompletion at h
      split at h
      · simp at h
      · simp at h
      · simp at h
      · simp at h
      · rename_i hst
        split at h
        · rename_i htc
          exact ⟨n, Or.inl hst, htc⟩
        · exact ih (n + 1) h
      · rename_i hst
        split at h
        · rename_i htc
          exact ⟨n, Or.inr hst, htc⟩
        · exact ih (n + 1) h

/-- Witness for C9 at a concrete alignment oracle: one non-terminal poll,
then success with the power present. -/
theorem C9_wait_for_completion_witness :
    waitForCompletion demoAlignEnv 300 4 1 =
      some (.ok ⟨true, .successMsg, some 3⟩) ∧
    waitForCompletion demoAlignEnv 300 4 0 = waitForCompletion demoAlignEnv 300 3 1 :=
  ⟨(C9_wait_for_completion demoAlignEnv 300 3 1).1 rfl,
    ((C9_wait_for_completion demoAlignEnv 300 3 0).2.2.2.1 (Or.inr rfl)).2
      (by norm_num [demoAlignEnv])⟩

end ClaimC9

section ClaimC10

/-- C10: the claim's clause that `emergency_stop` returns normally "after
cancelling any live motion tasks" is false: in the reachable state where a
task for `X1` has been created but not yet scheduled (`isMoving` still
false), the `if self._is_moving[axis]` guard skips the axis and the live
task survives, although the call still returns normally. -/
theorem C10_counterexample : ¬ claimC10 := by
  intro h
  have h1 := (h pendingMoveState pendingMoveState_reachable).2 AxisId.X1
  rw [show (MockBackend.emergency_stop pendingMoveState).1.task AxisId.X1 =
      some ⟨0, 100000, 1000, TaskPC.notStarted⟩ from rfl] at h1
  exact Option.noConfusion h1

/-- C10 (amended): the mock `emergency_stop` never checks the connection
flag and never raises — for every backend state, connected or not, it
returns normally — and cancels the task of every axis whose moving flag is
set (a created-but-unstarted live task survives); unlike it, every other
per-axis mock operation raises the not-connected `HardwareError` when the
backend is disconnected. -/
theorem C10_emergency_stop_unchecked (s : MState) (a : AxisId) (t : ℚ)
    (rel : Bool) (sp : Option ℚ) (tmo : ℚ) :
    (MockBackend.emergency_stop s).2 = .ok () ∧
    (movingIffStartedTask s → s.moving a = true →
      (MockBackend.emergency_stop s).1.moving a = false ∧
      (MockBackend.emergency_stop s).1.task a = none) ∧
    (s.connected = false →
      (MockBackend.get_axis_position a s).2 = .error .hardware ∧
      (MockBackend.move_axis a t rel sp s).2 = .error .hardware ∧
      (MockBackend.is_axis_moving a s).2 = .error .hardware ∧
      (MockBackend.wait_for_motion_complete a tmo s).2 = .error .hardware ∧
      (MockBackend.enable_servo a s).2 = .error .hardware ∧
      (MockBackend.disable_servo a s).2 = .error .hardware ∧
      (MockBackend.home_axis a s).2 = .error .hardware ∧
      (MockBackend.get_axis_status a s).2 = .error .hardware) := by
  refine ⟨rfl, ?_, fun hc => ?_⟩
  · intro hinv hm
    exact estopFold_clears allAxes s a hinv (by cases a <;> simp [allAxes]) hm
  · refine ⟨?_, ?_, ?_, ?_, ?_, ?_, ?_, ?_⟩ <;>
      simp [MockBackend.get_axis_position, MockBackend.move_axis,
        MockBackend.is_axis_moving, MockBackend.wait_for_motion_complete,
        MockBackend.enable_servo, MockBackend.disable_servo,
        MockBackend.home_axis, MockBackend.get_axis_status, hc]

/-- Witness for C10's amended behaviour: cancellation of a started task on
a concrete moving state, and the disconnected contrast on the freshly
constructed backend. -/
theorem C10_emergency_stop_unchecked_witness :
    ((MockBackend.emergency_stop startedMoveState).2 = .ok () ∧
      (MockBackend.emergency_stop startedMoveState).1.moving AxisId.X1 = false ∧
      (MockBackend.emergency_stop startedMoveState).1.task AxisId.X1 = none) ∧
    ((MockBackend.get_axis_position AxisId.X1 initState).2 = .error .hardware ∧
      (MockBackend.move_axis AxisId.X1 0 false none initState).2 = .error .hardware ∧
      (MockBackend.is_axis_moving AxisId.X1 initState).2 = .error .hardware ∧
      (MockBackend.wait_for_motion_complete AxisId.X1 30 initState).2 = .error .hardware ∧
      (MockBackend.enable_servo AxisId.X1 initState).2 = .error .hardware ∧
      (MockBackend.disable_servo AxisId.X1 initState).2 = .error .hardware ∧
      (MockBackend.home_axis AxisId.X1 initState).2 = .error .hardware ∧
      (MockBackend.get_axis_status AxisId.X1 initState).2 = .error .hardware) :=
  ⟨⟨(C10_emergency_stop_unchecked startedMoveState AxisId.X1 0 false none 30).1,
      (C10_emergency_stop_unchecked startedMoveState AxisId.X1 0 false none 30).2.1
        (reachable_movingIffStartedTask startedMoveState startedMoveState_reachable)
        rfl⟩,
    (C10_emergency_stop_unchecked initState AxisId.X1 0 false none 30).2.2 rfl⟩

end ClaimC10

section ClaimC8

theorem issueMoves_fst (env : OrchEnv) :
    ∀ (l : List MoveReq) (i : ℕ), (issueMoves env l i).1 = l.map MoveReq.axis := by
  intro l
  induction l with
  | nil => intro i; rfl
  | cons r rs ih =>
    intro i
    simp [issueMoves, ih (i + 1)]

theorem issueMoves_snd (env : OrchEnv) :
    ∀ (l : List MoveReq) (i : ℕ),
      ((issueMoves env l i).2 = true ↔
        ∃ j, j < l.length ∧ isErr (env.moveRes (i + j)) = true) := by
  intro l
  induction l with
  | nil =>
    intro i
    simp [issueMoves]
  | cons r rs ih =>
    intro i
    simp only [issueMoves, Bool.or_eq_true, ih (i + 1), List.length_cons]
    constructor
    · rintro (h | ⟨j, hj, hE⟩)
      · exact ⟨0, by omega, by simpa using h⟩
      · refine ⟨j + 1, by omega, ?_⟩
        rw [show i + (j + 1) = i + 1 + j by omega]
        exact hE
    · rintro ⟨j, hj, hE⟩
      cases j with
      | zero => exact Or.inl (by simpa using hE)
      | succ j =>
        refine Or.inr ⟨j, by omega, ?_⟩
        rw [show i + 1 + j = i + (j + 1) by omega]
        exact hE

theorem waitPhase_spec (env : OrchEnv) :
    ∀ (l : List MoveReq) (i : ℕ) (resps : List MovementResp) (flag : Bool),
      waitPhase env l i = .ok (resps, flag) →
        resps.map MovementResp.axis = l.map MoveReq.axis ∧
        (flag = true ↔ ∃ j, j < l.length ∧
          (isErr (env.waitRes (i + j)) = true ∨ isErr (env.posTry (i + j)) = true)) := by
  intro l
  induction l with
  | nil =>
    intro i resps flag h
    simp only [waitPhase] at h
    obtain ⟨h1, h2⟩ := Prod.mk.injEq .. ▸ Except.ok.inj h
    subst h1
    subst h2
    simp
  | cons r rs ih =>
    intro i resps flag h
    unfold waitPhase at h
    split at h
    · -- waitRes i returned ok
      rename_i hw
      split at h
      · -- posTry i returned ok
        rename_i p hp
        split at h
        · -- recursion ok
          rename_i resps0 flag0 hrec
          obtain ⟨hresps, hflag⟩ := Prod.mk.injEq .. ▸ Except.ok.inj h
          subst hresps
          subst hflag
          obtain ⟨hmap, hiff⟩ := ih (i + 1) resps0 flag0 hrec
          refine ⟨by simp [hmap], ?_⟩
          rw [hiff]
          constructor
          · rintro ⟨j, hj, hE⟩
            refine ⟨j + 1, by simpa using by omega, ?_⟩
            rw [show i + (j + 1) = i + 1 + j by omega]
            exact hE
          · rintro ⟨j, hj, hE⟩
            cases j with
            | zero =>
              exfalso
              simp only [Nat.add_zero] at hE
              rcases hE with hE | hE
              · rw [hw] at hE
                simp [isErr] at hE
              · rw [hp] at hE
                simp [isErr] at hE
            | succ j =>
              refine ⟨j, by simp at hj; omega, ?_⟩
              rw [show i + 1 + j = i + (j + 1) by omega]
              exact hE
        · exact absurd h (by simp)
      · -- posTry i raised; handler read posExc
        rename_i hp
        split at h
        · rename_i p hpe
          split at h
          · rename_i resps0 flag0 hrec
            obtain ⟨hresps, hflag⟩ := Prod.mk.injEq .. ▸ Except.ok.inj h
            subst hresps
            subst hflag
            obtain ⟨hmap, _⟩ := ih (i + 1) resps0 flag0 hrec
            refine ⟨by simp [hmap], ?_⟩
            simp only [List.length_cons, true_iff]
            exact ⟨0, by omega, Or.inr (by simpa [isErr] using congrArg isErr hp)⟩
          · exact absurd h (by simp)
        · exact absurd h (by simp)
    · -- waitRes i raised; handler read posExc
      rename_i hw
      split at h
      · rename_i p hpe
        split at h
        · rename_i resps0 flag0 hrec
          obtain ⟨hresps, hflag⟩ := Prod.mk.injEq .. ▸ Except.ok.inj h
          subst hresps
          subst hflag
          obtain ⟨hmap, _⟩ := ih (i + 1) resps0 flag0 hrec
          refine ⟨by simp [hmap], ?_⟩
          simp only [List.length_cons, true_iff]
          exact ⟨0, by omega, Or.inl (by simpa [isErr] using congrArg isErr hw)⟩
        · exact absurd h (by simp)
      · exact absurd h (by simp)

end ClaimC8

/-- C8: `move_multiple_axes` issues every `move_axis` call in request
order regardless of earlier failures; with waiting requested it builds one
per-axis result per request in the same order; and the overall status is
`ERROR` exactly when some move call failed or (when waiting) some waited
request failed at the wait or read-back stage, else `COMPLETED`. -/
theorem C8_move_multiple (env : OrchEnv) (reqs : List MoveReq) (w : Bool) :
    (moveMultipleAxes env reqs w).1 = reqs.map MoveReq.axis ∧
    (∀ resps overall, w = true →
      (moveMultipleAxes env reqs w).2 = .ok (resps, overall) →
      resps.map MovementResp.axis = reqs.map MoveReq.axis) ∧
    (∀ resps overall,
      (moveMultipleAxes env reqs w).2 = .ok (resps, overall) →
      (overall = .errorResult ↔
        (∃ j, j < reqs.length ∧ isErr (env.moveRes j) = true) ∨
        (w = true ∧ ∃ j, j < reqs.length ∧
          (isErr (env.waitRes j) = true ∨ isErr (env.posTry j) = true)))) := by
  cases w with
  | true =>
    have hfst : (moveMultipleAxes env reqs true).1 = (issueMoves env reqs 0).1 := by
      unfold moveMultipleAxes
      rw [if_pos rfl]
      split <;> rfl
    cases hwp : waitPhase env reqs 0 with
    | error e =>
      have h2 : (moveMultipleAxes env reqs true).2 = .error e := by
        unfold moveMultipleAxes
        rw [if_pos rfl, hwp]
      refine ⟨hfst.trans (issueMoves_fst env reqs 0), ?_, ?_⟩
      · intro resps overall _ hok
        rw [h2] at hok
        exact absurd hok (by simp)
      · intro resps overall hok
        rw [h2] at hok
        exact absurd hok (by simp)
    | ok pr =>
      obtain ⟨resps0, flag0⟩ := pr
      have h2 : (moveMultipleAxes env reqs true).2 =
          .ok (resps0,
            if (issueMoves env reqs 0).2 || flag0 then MovementStatus.errorResult
            else MovementStatus.completed) := by
        unfold moveMultipleAxes
        rw [if_pos rfl, hwp]
      obtain ⟨hmap, hiff⟩ := waitPhase_spec env reqs 0 resps0 flag0 hwp
      refine ⟨hfst.trans (issueMoves_fst env reqs 0), ?_, ?_⟩
      · intro resps overall _ hok
        rw [h2] at hok
        obtain ⟨hr, _⟩ := Prod.mk.injEq .. ▸ Except.ok.inj hok
        rw [← hr]
        exact hmap
      · intro resps overall hok
        rw [h2] at hok
        obtain ⟨_, hov⟩ := Prod.mk.injEq .. ▸ Except.ok.inj hok
        have hoviff : overall = MovementStatus.errorResult ↔
            ((issueMoves env reqs 0).2 || flag0) = true := by
          rw [← hov]
          by_cases hc : ((issueMoves env reqs 0).2 || flag0) = true
          · simp [hc]
          · simp only [Bool.not_eq_true] at hc
            simp [hc]
        rw [hoviff, Bool.or_eq_true, issueMoves_snd env reqs 0, hiff]
        simp only [zero_add]
        constructor
        · rintro (h | h)
          · exact Or.inl h
          · exact Or.inr ⟨by trivial, h⟩
        · rintro (h | ⟨_, h⟩)
          · exact Or.inl h
          · exact Or.inr h
  | false =>
    have hfst : (moveMultipleAxes env reqs false).1 = (issueMoves env reqs 0).1 := by
      unfold moveMultipleAxes
      rw [if_neg (by simp)]
      split <;> rfl
    cases hnp : noWaitPhase env reqs 0 with
    | error e =>
      have h2 : (moveMultipleAxes env reqs false).2 = .error e := by
        unfold moveMultipleAxes
        rw [if_neg (by simp), hnp]
      refine ⟨hfst.trans (issueMoves_fst env reqs 0), ?_, ?_⟩
      · intro resps overall hfalse _
        exact absurd hfalse (by simp)
      · intro resps overall hok
        rw [h2] at hok
        exact absurd hok (by simp)
    | ok resps0 =>
      have h2 : (moveMultipleAxes env reqs false).2 =
          .ok (resps0,
            if (issueMoves env reqs 0).2 then MovementStatus.errorResult
            else MovementStatus.completed) := by
        unfold moveMultipleAxes
        rw [if_neg (by simp), hnp]
      refine ⟨hfst.trans (issueMoves_fst env reqs 0), ?_, ?_⟩
      · intro resps overall hfalse _
        exact absurd hfalse (by simp)
      · intro resps overall hok
        rw [h2] at hok
        obtain ⟨_, hov⟩ := Prod.mk.injEq .. ▸ Except.ok.inj hok
        have hoviff : overall = MovementStatus.errorResult ↔
            (issueMoves env reqs 0).2 = true := by
          rw [← hov]
          by_cases hc : (issueMoves env reqs 0).2 = true
          · simp [hc]
          · simp only [Bool.not_eq_true] at hc
            simp [hc]
        rw [hoviff, issueMoves_snd env reqs 0]
        simp only [zero_add]
        constructor
        · intro h
          exact Or.inl h
        · rintro (h | ⟨hfalse, _⟩)
          · exact h
          · exact absurd hfalse (by simp)

/-- Witness for C8 at a concrete request list and oracle where the first
move call fails but both waits succeed: all moves issued, one result per
request, overall status `ERROR`. -/
theorem C8_move_multiple_witness :
    (moveMultipleAxes demoOrchEnv demoReqs true).1 = demoReqs.map MoveReq.axis ∧
    demoResps.map MovementResp.axis = demoReqs.map MoveReq.axis ∧
    (MovementStatus.errorResult = MovementStatus.errorResult ↔
      (∃ j, j < demoReqs.length ∧ isErr (demoOrchEnv.moveRes j) = true) ∨
      (true = true ∧ ∃ j, j < demoReqs.length ∧
        (isErr (demoOrchEnv.waitRes j) = true ∨
          isErr (demoOrchEnv.posTry j) = true))) := by
  have hok : (moveMultipleAxes demoOrchEnv demoReqs true).2 =
      .ok (demoResps, MovementStatus.errorResult) := by rfl
  exact ⟨(C8_move_multiple demoOrchEnv demoReqs true).1,
    (C8_move_multiple demoOrchEnv demoReqs true).2.1 demoResps
      MovementStatus.errorResult rfl hok,
    (C8_move_multiple demoOrchEnv demoReqs true).2.2 demoResps
      MovementStatus.errorResult hok⟩
